import Mathlib

/-
Verification of the datasource template modules of
ai-coach-data-source-orchestrator.

The repository holds two Python template modules:
  * datasource-generator/templates/datasource_template.py
  * datasource-generator/templates/team_datasource_template.py
Each module defines string constants (template text with \x7b\x7bNAME\x7d\x7d
placeholder tokens) and accessor functions whose bodies are dict literals or
an f-string over those constants.  We embed the modules shallowly: constants
become Lean strings, each accessor body becomes the list of (key, expression)
pairs or f-string parts written in the source, and a small evaluator gives
the Python semantics of evaluating those expressions in the module namespace
(left-to-right, with NameError on an unbound name).
-/

namespace DatasourceOrchestrator

/-- Python runtime values occurring in these modules: strings, integers, and
one-element sets (the only set displays in the source are the nested ones in
the total_members value of get_team_info). -/
inductive PyVal where
  | str (s : String)
  | int (n : Int)
  | setOf (elem : PyVal)
  deriving Repr, DecidableEq

/-- Python exceptions these modules can raise: NameError (looking up an
unbound name) and TypeError (here only for putting an unhashable value into
a set). -/
inductive PyExc where
  | nameError (n : String)
  | typeError (msg : String)
  deriving Repr, DecidableEq

/-- A module namespace: names bound at module level, in definition order. -/
abbrev Env := List (String × PyVal)

/-- A Python dict with string-literal keys, as returned by the accessors. -/
abbrev Dict := List (String × PyVal)

/-- Name lookup in a namespace (first binding wins). -/
def lookupEnv (n : String) : Env → Option PyVal
  | [] => none
  | (k, v) :: rest => if k = n then some v else lookupEnv n rest

/-- The expressions appearing in the accessor bodies: string literals, name
references, and the one-element set display `{e}`. -/
inductive Expr where
  | strLit (s : String)
  | name (n : String)
  | setDisplay (elem : Expr)
  deriving Repr, DecidableEq

/-- Evaluate an expression in a namespace.  An unbound name raises NameError,
exactly as in Python.  A set display first evaluates its element expression;
if that raises, the exception propagates before any set is built, and if it
yields a set, building the enclosing set raises TypeError because sets are
unhashable (Python reports this as unhashable type: \x27set\x27; strings and
integers are hashable). -/
def evalExpr (env : Env) : Expr → Except PyExc PyVal
  | .strLit s => .ok (.str s)
  | .name n =>
    match lookupEnv n env with
    | some v => .ok v
    | none => .error (.nameError n)
  | .setDisplay e =>
    match evalExpr env e with
    | .ok (.setOf _) => .error (.typeError "unhashable type: \x27set\x27")
    | .ok v => .ok (.setOf v)
    | .error exc => .error exc

/-- Evaluate the entries of a dict literal left to right; the first raised
exception aborts the construction, as in Python. -/
def evalEntries (env : Env) : List (String × Expr) → Except PyExc Dict
  | [] => .ok []
  | (k, e) :: rest =>
    match evalExpr env e with
    | .error exc => .error exc
    | .ok v =>
      match evalEntries env rest with
      | .error exc => .error exc
      | .ok d => .ok ((k, v) :: d)

/-- Python str() for the values above.  The modules only ever interpolate
string-valued names into f-strings, so only the first case is exercised; the
set case is a placeholder rendering that no code path reaches. -/
def pyStr : PyVal → String
  | .str s => s
  | .int n => toString n
  | .setOf v => "\x7b" ++ pyStr v ++ "\x7d"

/-- One piece of an f-string: literal text, or an interpolated name (the only
interpolations in the source are bare names). -/
inductive FPart where
  | lit (s : String)
  | interp (n : String)
  deriving Repr, DecidableEq

/-- Evaluate an f-string left to right: literal parts pass through, each
interpolated name is looked up and rendered with str(). -/
def evalFstr (env : Env) : List FPart → Except PyExc String
  | [] => .ok ""
  | .lit s :: rest =>
    match evalFstr env rest with
    | .ok r => .ok (s ++ r)
    | .error exc => .error exc
  | .interp n :: rest =>
    match evalExpr env (.name n) with
    | .error exc => .error exc
    | .ok v =>
      match evalFstr env rest with
      | .ok r => .ok (pyStr v ++ r)
      | .error exc => .error exc

/-- Keys of an accessor result, when the accessor returned a dict. -/
def exceptKeys : Except PyExc Dict → Option (List String)
  | .ok d => some (d.map Prod.fst)
  | .error _ => none

/-- Checks that a string is exactly one placeholder token \x7b\x7bNAME\x7d\x7d
and nothing else: it starts with two opening braces, ends with two closing
braces, and the nonempty inner name holds no brace.  Char.ofNat 123 and
Char.ofNat 125 are the opening and closing brace characters. -/
def placeholderName (s : String) : Option String :=
  let ob := Char.ofNat 123
  let cb := Char.ofNat 125
  let cs := s.data
  let inner := ((cs.drop 2).dropLast).dropLast
  if cs.take 2 = [ob, ob] ∧ cs.drop (cs.length - 2) = [cb, cb] ∧
      4 < cs.length ∧ inner.all (fun c => c ≠ ob ∧ c ≠ cb) then
    some (String.mk inner)
  else
    none

/-- Whether pat is an initial segment of l. -/
def charsStartWith : List Char → List Char → Bool
  | [], _ => true
  | _ :: _, [] => false
  | c :: cs, d :: ds => c == d && charsStartWith cs ds

/-- Whether pat occurs as a contiguous run inside l. -/
def charsContain (pat : List Char) : List Char → Bool
  | [] => pat.isEmpty
  | c :: rest => charsStartWith pat (c :: rest) || charsContain pat rest

/-- Whether the pattern occurs as a contiguous substring of s. -/
def strContains (s pat : String) : Bool :=
  charsContain pat.data s.data

namespace datasource_template

/-- Constant DAILY_TEXT of datasource_template.py. -/
def DAILY_TEXT : String := "\x7b\x7bDAILY_CONTENT\x7d\x7d"

/-- Constant JIRA_TEXT of datasource_template.py. -/
def JIRA_TEXT : String := "\x7b\x7bJIRA_CONTENT\x7d\x7d"

/-- Constant FATHOM_TEXT of datasource_template.py. -/
def FATHOM_TEXT : String := "\x7b\x7bFATHOM_CONTENT\x7d\x7d"

/-- Constant CLAAP_TEXT of datasource_template.py. -/
def CLAAP_TEXT : String := "\x7b\x7bCLAAP_CONTENT\x7d\x7d"

/-- Constant PROJECT_CONTEXT_AND_HEALTH of datasource_template.py, verbatim
(including the trailing double space after "on time."). -/
def PROJECT_CONTEXT_AND_HEALTH : String :=
  "\n### Project Context\nAI Coach transforms daily reports, meeting transcripts, and Jira data into coaching insights for each team member within a specific date range. By providing a 360° view of individual impact, challenges, and engagement patterns, it equips managers to walk into 1:1s prepared with actionable ideas on wins, support needs, and next steps—turning scattered data into practical guidance for more effective coaching.\n\n### Project Health\n- **Team Performance:** Strong adaptability and execution speed, with successful integration of LangChain/LangSmith and delivery of modular prompt chains. Most July sprints completed on time.  \n- **Core Frustration:** Technical progress is high, but leadership is frustrated by lack of scalable validation due to manual data prep, unclear onboarding workflow, and limited automation.\n- **Current Focus:** Scaling feedback validation, improving UX workflows, and building automation to close gap between technical capabilities and practical impact.\n"

/-- Module namespace of datasource_template.py: the five constants bound at
module level.  The name TOTAL_MEMBERS is, in particular, not bound here. -/
def memberEnv : Env :=
  [("DAILY_TEXT", .str DAILY_TEXT),
   ("JIRA_TEXT", .str JIRA_TEXT),
   ("FATHOM_TEXT", .str FATHOM_TEXT),
   ("CLAAP_TEXT", .str CLAAP_TEXT),
   ("PROJECT_CONTEXT_AND_HEALTH", .str PROJECT_CONTEXT_AND_HEALTH)]

/-- The dict literal in the body of get_data_sources, entry by entry. -/
def get_data_sources_body : List (String × Expr) :=
  [("daily_text", .name "DAILY_TEXT"),
   ("jira_text", .name "JIRA_TEXT"),
   ("fathom_text", .name "FATHOM_TEXT"),
   ("claap_text", .name "CLAAP_TEXT"),
   ("project_context_and_health", .name "PROJECT_CONTEXT_AND_HEALTH")]

/-- Invoking get_data_sources(): evaluate its dict literal in the module
namespace. -/
def get_data_sources : Except PyExc Dict :=
  evalEntries memberEnv get_data_sources_body

/-- The dict literal in the body of get_team_member_info. -/
def get_team_member_info_body : List (String × Expr) :=
  [("name", .strLit "\x7b\x7bTEAM_MEMBER_NAME\x7d\x7d"),
   ("generated_date", .strLit "\x7b\x7bGENERATED_DATE\x7d\x7d")]

/-- Invoking get_team_member_info(). -/
def get_team_member_info : Except PyExc Dict :=
  evalEntries memberEnv get_team_member_info_body

end datasource_template

namespace team_datasource_template

/-- Constant JIRA_DATA of team_datasource_template.py. -/
def JIRA_DATA : String := "\x7b\x7bJIRA_CONTENT\x7d\x7d"

/-- Constant TRANSCRIPT_DATA of team_datasource_template.py. -/
def TRANSCRIPT_DATA : String := "\x7b\x7bTRANSCRIPT_CONTENT\x7d\x7d"

/-- Constant DAILY_REPORTS_DATA of team_datasource_template.py. -/
def DAILY_REPORTS_DATA : String := "\x7b\x7bDAILY_CONTENT\x7d\x7d"

/-- Module namespace of team_datasource_template.py: the three constants.
The name TOTAL_MEMBERS is not bound at module level. -/
def teamEnv : Env :=
  [("JIRA_DATA", .str JIRA_DATA),
   ("TRANSCRIPT_DATA", .str TRANSCRIPT_DATA),
   ("DAILY_REPORTS_DATA", .str DAILY_REPORTS_DATA)]

/-- The dict literal in the body of get_team_data, entry by entry. -/
def get_team_data_body : List (String × Expr) :=
  [("project", .strLit "\x7b\x7bPROJECT_NAME\x7d\x7d"),
   ("jira_data", .name "JIRA_DATA"),
   ("transcript_data", .name "TRANSCRIPT_DATA"),
   ("daily_reports_data", .name "DAILY_REPORTS_DATA"),
   ("generated_date", .strLit "\x7b\x7bGENERATED_DATE\x7d\x7d")]

/-- Invoking get_team_data(). -/
def get_team_data : Except PyExc Dict :=
  evalEntries teamEnv get_team_data_body

/-- The dict literal in the body of get_team_info.  The value written for
total_members is \x7b\x7bTOTAL_MEMBERS\x7d\x7d inside a plain dict literal
(not an f-string, so no brace collapsing applies): it parses as a set
display whose sole element is the set display over the bare name
TOTAL_MEMBERS — not a quoted placeholder string. -/
def get_team_info_body : List (String × Expr) :=
  [("project_name", .strLit "\x7b\x7bPROJECT_NAME\x7d\x7d"),
   ("date_range", .strLit "\x7b\x7bDATE_RANGE\x7d\x7d"),
   ("total_members", .setDisplay (.setDisplay (.name "TOTAL_MEMBERS"))),
   ("generated_date", .strLit "\x7b\x7bGENERATED_DATE\x7d\x7d")]

/-- Invoking get_team_info(). -/
def get_team_info : Except PyExc Dict :=
  evalEntries teamEnv get_team_info_body

/-- Invoking get_team_info() in a namespace where TOTAL_MEMBERS is
additionally bound to v (the state after external placeholder substitution
would bind it). -/
def get_team_infoWith (v : PyVal) : Except PyExc Dict :=
  evalEntries (("TOTAL_MEMBERS", v) :: teamEnv) get_team_info_body

/-- The f-string in the body of get_all_content, part by part. -/
def get_all_content_body : List FPart :=
  [.lit "\n# JIRA Team Report\n", .interp "JIRA_DATA",
   .lit "\n\n# Team Transcripts\n", .interp "TRANSCRIPT_DATA",
   .lit "\n\n# Daily Reports\n", .interp "DAILY_REPORTS_DATA",
   .lit "\n"]

/-- Invoking get_all_content(). -/
def get_all_content : Except PyExc String :=
  evalFstr teamEnv get_all_content_body

/-- The team namespace as it would look were the three data constants set to
"X", "Y" and "Z" (the counterfactual instance named by the spec). -/
def teamEnvXYZ : Env :=
  [("JIRA_DATA", .str "X"),
   ("TRANSCRIPT_DATA", .str "Y"),
   ("DAILY_REPORTS_DATA", .str "Z")]

end team_datasource_template

/-- C4: every invocation of get_data_sources() returns a mapping containing
exactly the five keys daily_text, jira_text, fathom_text, claap_text,
project_context_and_health, no more, no less. -/
theorem C4_get_data_sources_keys :
    exceptKeys datasource_template.get_data_sources =
      some ["daily_text", "jira_text", "fathom_text", "claap_text",
            "project_context_and_health"] := rfl

/-- C5: every invocation of get_team_data() returns a mapping containing
exactly the five keys project, jira_data, transcript_data,
daily_reports_data, generated_date, no more, no less. -/
theorem C5_get_team_data_keys :
    exceptKeys team_datasource_template.get_team_data =
      some ["project", "jira_data", "transcript_data", "daily_reports_data",
            "generated_date"] := rfl

/-- C6: every invocation of get_team_member_info() returns a mapping
containing exactly the two keys name and generated_date, no more, no less. -/
theorem C6_get_team_member_info_keys :
    exceptKeys datasource_template.get_team_member_info =
      some ["name", "generated_date"] := rfl

/-- C1 counterexample: the claim that every public accessor returns normally
and cannot fail is false — invoking get_team_info() raises NameError for the
unbound name TOTAL_MEMBERS. -/
theorem C1_counterexample :
    team_datasource_template.get_team_info =
      Except.error (PyExc.nameError "TOTAL_MEMBERS") := rfl

/-- C1 amended: get_data_sources, get_team_member_info, get_team_data and
get_all_content are total and return normally on every invocation, but
get_team_info fails on every invocation with a NameError for the unbound
name TOTAL_MEMBERS. -/
theorem C1_amended_totality :
    (∃ d, datasource_template.get_data_sources = Except.ok d) ∧
      (∃ d, datasource_template.get_team_member_info = Except.ok d) ∧
      (∃ d, team_datasource_template.get_team_data = Except.ok d) ∧
      (∃ s, team_datasource_template.get_all_content = Except.ok s) ∧
      team_datasource_template.get_team_info =
        Except.error (PyExc.nameError "TOTAL_MEMBERS") :=
  ⟨⟨_, rfl⟩, ⟨_, rfl⟩, ⟨_, rfl⟩, ⟨_, rfl⟩, rfl⟩

/-- C2 counterexample: the claim that every invocation of get_team_info()
returns a mapping is false — no invocation returns a value at all, because
evaluating the dict literal raises NameError. -/
theorem C2_counterexample :
    ¬ ∃ d : Dict, team_datasource_template.get_team_info = Except.ok d := by
  rintro ⟨d, hd⟩
  exact Except.noConfusion hd

/-- C2 amended: no invocation of get_team_info() returns a mapping.  As
shipped it raises NameError for the unbound name TOTAL_MEMBERS, and in a
namespace binding TOTAL_MEMBERS to any value it raises TypeError, because the
total_members value is a set display whose element is itself a set display
and sets are unhashable.  The four keys project_name, date_range,
total_members, generated_date are exactly the keys written in its dict
literal, but that mapping is never produced. -/
theorem C2_amended_team_info_keys :
    team_datasource_template.get_team_info_body.map Prod.fst =
      ["project_name", "date_range", "total_members", "generated_date"] ∧
      team_datasource_template.get_team_info =
        Except.error (PyExc.nameError "TOTAL_MEMBERS") ∧
      ∀ v : PyVal, team_datasource_template.get_team_infoWith v =
        Except.error (PyExc.typeError "unhashable type: \x27set\x27") := by
  refine ⟨rfl, rfl, ?_⟩
  intro v
  cases v <;> rfl

/-- C2 amended, instantiated: binding TOTAL_MEMBERS to the integer 5 still
leaves get_team_info() raising on every invocation — a TypeError from the
set-in-set value instead of the NameError. -/
theorem C2_amended_team_info_keys_witness :
    team_datasource_template.get_team_infoWith (PyVal.int 5) =
      Except.error (PyExc.typeError "unhashable type: \x27set\x27") :=
  C2_amended_team_info_keys.2.2 (PyVal.int 5)

/-- C3: get_all_content() returns exactly the concatenation
"\n# JIRA Team Report\n" ++ JIRA_DATA ++ "\n\n# Team Transcripts\n" ++
TRANSCRIPT_DATA ++ "\n\n# Daily Reports\n" ++ DAILY_REPORTS_DATA ++ "\n";
and with the constants set to "X", "Y", "Z" the output contains the
substrings "# JIRA Team Report\nX", "# Team Transcripts\nY",
"# Daily Reports\nZ" in that order. -/
theorem C3_get_all_content_exact :
    team_datasource_template.get_all_content =
      Except.ok ("\n# JIRA Team Report\n" ++ team_datasource_template.JIRA_DATA ++
        "\n\n# Team Transcripts\n" ++ team_datasource_template.TRANSCRIPT_DATA ++
        "\n\n# Daily Reports\n" ++ team_datasource_template.DAILY_REPORTS_DATA ++
        "\n") ∧
      ∃ s, evalFstr team_datasource_template.teamEnvXYZ
            team_datasource_template.get_all_content_body = Except.ok s ∧
        ∃ p₁ p₂ p₃ p₄, s = p₁ ++ "# JIRA Team Report\nX" ++ p₂ ++
          "# Team Transcripts\nY" ++ p₃ ++ "# Daily Reports\nZ" ++ p₄ :=
  ⟨rfl, ⟨"\n# JIRA Team Report\nX\n\n# Team Transcripts\nY\n\n# Daily Reports\nZ\n",
    rfl, "\n", "\n\n", "\n\n", "\n", rfl⟩⟩

/-- C7: the text values returned by get_team_data() and get_data_sources()
equal the module string constants verbatim.  In this embedding each accessor
is a fixed value of the fixed module namespace, so any two invocations are
definitionally the same result and no invocation alters the namespace. -/
theorem C7_values_verbatim :
    ∃ td ds,
      team_datasource_template.get_team_data = Except.ok td ∧
      td.lookup "jira_data" = some (PyVal.str team_datasource_template.JIRA_DATA) ∧
      td.lookup "transcript_data" =
        some (PyVal.str team_datasource_template.TRANSCRIPT_DATA) ∧
      td.lookup "daily_reports_data" =
        some (PyVal.str team_datasource_template.DAILY_REPORTS_DATA) ∧
      datasource_template.get_data_sources = Except.ok ds ∧
      ds.lookup "daily_text" = some (PyVal.str datasource_template.DAILY_TEXT) ∧
      ds.lookup "jira_text" = some (PyVal.str datasource_template.JIRA_TEXT) ∧
      ds.lookup "fathom_text" = some (PyVal.str datasource_template.FATHOM_TEXT) ∧
      ds.lookup "claap_text" = some (PyVal.str datasource_template.CLAAP_TEXT) ∧
      ds.lookup "project_context_and_health" =
        some (PyVal.str datasource_template.PROJECT_CONTEXT_AND_HEALTH) :=
  ⟨_, _, rfl, rfl, rfl, rfl, rfl, rfl, rfl, rfl, rfl, rfl⟩

/-- C8: get_team_info() raises before producing a mapping: the value written
for total_members is a set-display expression (a set display whose element is
the set display over the bare name TOTAL_MEMBERS), that name is unbound in
the module namespace, and the name lookup precedes any set construction, so
every invocation evaluates to a NameError and never to a dict. -/
theorem C8_get_team_info_raises :
    lookupEnv "TOTAL_MEMBERS" team_datasource_template.teamEnv = none ∧
      team_datasource_template.get_team_info_body.lookup "total_members" =
        some (Expr.setDisplay (Expr.setDisplay (Expr.name "TOTAL_MEMBERS"))) ∧
      team_datasource_template.get_team_info =
        Except.error (PyExc.nameError "TOTAL_MEMBERS") ∧
      ∀ d : Dict, team_datasource_template.get_team_info ≠ Except.ok d :=
  ⟨rfl, rfl, rfl, fun _ h => Except.noConfusion h⟩

/-- C9: get_all_content() is consistent with get_team_data(): its output is
the fixed-heading concatenation of exactly the jira_data, transcript_data and
daily_reports_data values that get_team_data() exposes. -/
theorem C9_all_content_consistent_with_team_data :
    ∃ j t d td,
      team_datasource_template.get_team_data = Except.ok td ∧
      td.lookup "jira_data" = some (PyVal.str j) ∧
      td.lookup "transcript_data" = some (PyVal.str t) ∧
      td.lookup "daily_reports_data" = some (PyVal.str d) ∧
      team_datasource_template.get_all_content =
        Except.ok ("\n# JIRA Team Report\n" ++ j ++ "\n\n# Team Transcripts\n" ++
          t ++ "\n\n# Daily Reports\n" ++ d ++ "\n") :=
  ⟨team_datasource_template.JIRA_DATA, team_datasource_template.TRANSCRIPT_DATA,
   team_datasource_template.DAILY_REPORTS_DATA, _, rfl, rfl, rfl, rfl, rfl⟩

set_option maxRecDepth 100000 in
/-- C10: each of DAILY_TEXT, JIRA_TEXT, FATHOM_TEXT, CLAAP_TEXT is exactly
one placeholder token and nothing else, while PROJECT_CONTEXT_AND_HEALTH
contains no occurrence of two consecutive opening braces at all. -/
theorem C10_placeholder_shapes :
    placeholderName datasource_template.DAILY_TEXT = some "DAILY_CONTENT" ∧
      placeholderName datasource_template.JIRA_TEXT = some "JIRA_CONTENT" ∧
      placeholderName datasource_template.FATHOM_TEXT = some "FATHOM_CONTENT" ∧
      placeholderName datasource_template.CLAAP_TEXT = some "CLAAP_CONTENT" ∧
      strContains datasource_template.PROJECT_CONTEXT_AND_HEALTH "\x7b\x7b" =
        false :=
  ⟨by decide, by decide, by decide, by decide, by decide⟩

end DatasourceOrchestrator
